import Mathlib

/-!
# Verification of the identity-verification webhook backend

Shallow embedding of the backend's database layer (`database.js`) and HTTP
handlers (`server.js`), together with proofs of the specification's testable
properties.  Stored state is a pair of append-ordered tables
(`verification_sessions`, `audit_log`); timestamps are modelled as natural
numbers supplied by the caller (`datetime('now')` becomes an explicit `now`
argument).
-/

namespace StripePoc

/-- A row of the `verification_sessions` table (schema in `database.js`). -/
structure Session where
  session_id : String
  user_reference : String
  status : String
  verification_type : String
  created_at : Nat
  updated_at : Nat
  verified_at : Option Nat
  last_event_id : Option String
deriving Repr, DecidableEq

/-- A row of the `audit_log` table.  `metadata` models the JSON object passed
to `logAuditEvent` as a key/value list (values nullable, as in the source). -/
structure AuditEntry where
  event_type : String
  session_id : Option String
  timestamp : Nat
  metadata : List (String × Option String)
  ip_address : Option String
  result : String
deriving Repr, DecidableEq

/-- The persistent store: both tables, rows in insertion order. -/
structure DB where
  sessions : List Session
  audit : List AuditEntry
deriving Repr, DecidableEq

/-- `logAuditEvent(eventType, sessionId, metadata, ipAddress)` from
`database.js`: INSERT INTO audit_log with result 'success'. -/
def logAuditEvent (eventType : String) (sessionId : Option String)
    (metadata : List (String × Option String)) (ipAddress : Option String)
    (now : Nat) (db : DB) : DB :=
  { db with audit := db.audit ++ [⟨eventType, sessionId, now, metadata, ipAddress, "success"⟩] }

/-- `createVerificationRecord(sessionId, userReference, verificationType)`:
INSERT a row with status 'created', then audit `session_created`. -/
def createVerificationRecord (sessionId userReference verificationType : String)
    (now : Nat) (db : DB) : DB :=
  let row : Session :=
    ⟨sessionId, userReference, "created", verificationType, now, now, none, none⟩
  let db1 : DB := { db with sessions := db.sessions ++ [row] }
  logAuditEvent "session_created" (some sessionId)
    [("user_reference", some userReference),
     ("verification_type", some verificationType)] none now db1

/-- The per-row effect of the UPDATE in `updateVerificationStatus`:
`SET status = ?, updated_at = now, verified_at = CASE WHEN ? = 'verified'
THEN now ELSE verified_at END, last_event_id = ? WHERE session_id = ?`. -/
def applyUpdate (sessionId status : String) (eventId : Option String)
    (now : Nat) (s : Session) : Session :=
  if s.session_id = sessionId then
    { s with status := status, updated_at := now,
             verified_at := if status = "verified" then some now else s.verified_at,
             last_event_id := eventId }
  else s

/-- `updateVerificationStatus(sessionId, status, eventId)` from `database.js`:
run the UPDATE, then unconditionally audit `status_updated`; returns
`result.changes > 0` (whether any row matched the WHERE clause). -/
def updateVerificationStatus (sessionId status : String) (eventId : Option String)
    (now : Nat) (db : DB) : DB × Bool :=
  let changed := db.sessions.any (fun s => s.session_id == sessionId)
  let newSessions := db.sessions.map (applyUpdate sessionId status eventId now)
  let db1 : DB := { db with sessions := newSessions }
  let db2 := logAuditEvent "status_updated" (some sessionId)
    [("new_status", some status), ("event_id", eventId)] none now db1
  (db2, changed)

/-- `getVerificationBySessionId(sessionId)`: SELECT ... WHERE session_id = ?. -/
def getVerificationBySessionId (sessionId : String) (db : DB) : Option Session :=
  db.sessions.find? (fun s => s.session_id == sessionId)

/-- `isEventProcessed(eventId)`: COUNT rows WHERE last_event_id = ?; in SQL a
NULL `last_event_id` never matches a non-null parameter. -/
def isEventProcessed (eventId : String) (db : DB) : Bool :=
  db.sessions.any (fun s => s.last_event_id == some eventId)

/-- The body of the `db.transaction` in `deleteUserData`: first DELETE the
audit rows whose session_id is in (SELECT session_id FROM verification_sessions
WHERE user_reference = ?), then DELETE those sessions.  The subquery runs
before the sessions are deleted, so it sees the pre-state. -/
def deleteUserDataTransaction (userReference : String) (db : DB) : DB :=
  let ownedIds :=
    (db.sessions.filter (fun s => s.user_reference == userReference)).map
      (fun s => s.session_id)
  let keptAudit := db.audit.filter (fun a =>
      !(match a.session_id with
        | some sid => ownedIds.contains sid
        | none => false))
  let keptSessions := db.sessions.filter (fun s => !(s.user_reference == userReference))
  { sessions := keptSessions, audit := keptAudit }

/-- `deleteUserData(userReference)`: run the transaction, audit
`user_data_deleted` (session_id NULL, survives the erasure), return true. -/
def deleteUserData (userReference : String) (now : Nat) (db : DB) : DB × Bool :=
  let db1 := deleteUserDataTransaction userReference db
  (logAuditEvent "user_data_deleted" none
      [("user_reference", some userReference)] none now db1, true)

/-- Crash model for the injected-failure test of the delete transaction:
better-sqlite3 `db.transaction` rolls the whole unit back if the function
throws between the two DELETEs, so a crashed run leaves the store untouched
and a completed run applies both deletes. -/
def deleteUserDataWithCrash (userReference : String) (crash : Bool) (db : DB) : DB :=
  if crash then db else deleteUserDataTransaction userReference db

/-! ## Webhook intake (`server.js`)

A provider event as the handler reads it: `event.id`, `event.type`,
`event.data.object.id` and `event.data.object.last_error?.code`. -/

/-- The fields of a provider event that `server.js` reads. -/
structure StripeEvent where
  id : String
  type : String
  objectId : String
  lastErrorCode : Option String
deriving Repr, DecidableEq

/-- JavaScript `x || null` applied to `last_error?.code`: an absent code or the
falsy empty string both collapse to null. -/
def jsOrNull (o : Option String) : Option String :=
  match o with
  | some c => if c = "" then none else some c
  | none => none

/-- The HMAC signature Stripe computes over the raw payload bytes, modelled as
an injective pairing of secret and body (for a fixed secret, distinct bodies
have distinct signatures, which is all the control flow depends on). -/
def signBody (secret body : String) : String :=
  secret ++ "." ++ body

/-- Split a character list at a separator character. -/
def splitChar (sep : Char) : List Char → List (List Char)
  | [] => [[]]
  | c :: cs =>
    if c = sep then
      [] :: splitChar sep cs
    else
      match splitChar sep cs with
      | [] => [[c]]
      | g :: gs => (c :: g) :: gs

/-- Serialization of an event as a raw payload body.  The concrete wire format
(JSON in the source) is opaque to the handler logic; what matters is that a
body either decodes to an event or fails to parse. -/
def encodeEvent (e : StripeEvent) : String :=
  let errPart : List Char :=
    match e.lastErrorCode with
    | some c => 'c' :: c.data
    | none => ['n']
  String.mk (e.id.data ++ '|' :: e.type.data ++ '|' :: e.objectId.data ++ '|' :: errPart)

/-- Parse a raw payload body into an event; `none` models a `JSON.parse` /
malformed-structure failure. -/
def decodeEvent (body : String) : Option StripeEvent :=
  match splitChar '|' body.data with
  | [i, t, o, ec] =>
    match ec with
    | ['n'] => some ⟨String.mk i, String.mk t, String.mk o, none⟩
    | 'c' :: cs => some ⟨String.mk i, String.mk t, String.mk o, some (String.mk cs)⟩
    | _ => none
  | _ => none

/-- `stripe.webhooks.constructEvent(body, sig, secret)`: reject unless the
signature header is present and matches the raw body under the secret, then
parse; both failure modes throw to the route's catch block. -/
def constructEvent (body : String) (sig : Option String) (secret : String) :
    Option StripeEvent :=
  match sig with
  | some s => if s = signBody secret body then decodeEvent body else none
  | none => none

/-- The `switch (event.type)` dispatch of the webhook route: the four mapped
`identity.verification_session.*` types call `updateVerificationStatus` on
`event.data.object.id` (passing `last_error?.code || null` as the `eventId`
argument for `verified` and `requires_input`, and `null` for the others);
any other type falls through unchanged. -/
def dispatchEvent (e : StripeEvent) (now : Nat) (db : DB) : DB :=
  if e.type = "identity.verification_session.verified" then
    (updateVerificationStatus e.objectId "verified" (jsOrNull e.lastErrorCode) now db).1
  else if e.type = "identity.verification_session.requires_input" then
    (updateVerificationStatus e.objectId "requires_input" (jsOrNull e.lastErrorCode) now db).1
  else if e.type = "identity.verification_session.processing" then
    (updateVerificationStatus e.objectId "processing" none now db).1
  else if e.type = "identity.verification_session.canceled" then
    (updateVerificationStatus e.objectId "canceled" none now db).1
  else db

/-- Whether `event.type` is one of the four mapped webhook types. -/
def mappedType (t : String) : Bool :=
  t == "identity.verification_session.verified" ||
  t == "identity.verification_session.requires_input" ||
  t == "identity.verification_session.processing" ||
  t == "identity.verification_session.canceled"

/-- The audit row written by the webhook route's receipt log
(`logAuditEvent("webhook_received", event.data.object.id, ...)`). -/
def receiptEntry (e : StripeEvent) (now : Nat) : AuditEntry :=
  ⟨"webhook_received", some e.objectId, now,
    [("event_type", some e.type), ("event_id", some e.id)], none, "success"⟩

/-- The audit row written by the route's catch block
(`logAuditEvent("webhook_error", null, ...)`). -/
def webhookErrorEntry (now : Nat) : AuditEntry :=
  ⟨"webhook_error", none, now,
    [("error", some "webhook_error"), ("error_type", none), ("error_code", none)],
    none, "success"⟩

/-- The `POST /webhook` route of `server.js`.  Returns the new store, the HTTP
status, and whether the JSON response carried `status: "already_processed"`.
With no configured secret the body is parsed without any signature check;
with a secret, `constructEvent` verifies the signature over the raw body.
A verification or parse failure is audited as `webhook_error` and answered
400.  Otherwise: audit `webhook_received`, short-circuit if
`isEventProcessed(event.id)`, else dispatch on the event type, and answer 200. -/
def webhookHandler (secret : Option String) (body : String) (sig : Option String)
    (now : Nat) (db : DB) : DB × Nat × Bool :=
  let eventResult : Option StripeEvent :=
    match secret with
    | none => decodeEvent body
    | some sec => constructEvent body sig sec
  match eventResult with
  | none => (logAuditEvent "webhook_error" none
      [("error", some "webhook_error"), ("error_type", none), ("error_code", none)]
      none now db, 400, false)
  | some e =>
    let db1 := logAuditEvent "webhook_received" (some e.objectId)
      [("event_type", some e.type), ("event_id", some e.id)] none now db
    if isEventProcessed e.id db1 then
      (db1, 200, true)
    else
      (dispatchEvent e now db1, 200, false)

/-! ## Session lifecycle API (`server.js`) -/

/-- The provider's reply to `stripe.identity.verificationSessions.create`. -/
structure ProviderSession where
  id : String
  url : String
deriving Repr, DecidableEq

/-- The audit row written by `updateVerificationStatus`'s
`logAuditEvent("status_updated", ...)`. -/
def statusUpdatedEntry (sessionId status : String) (eventId : Option String)
    (now : Nat) : AuditEntry :=
  ⟨"status_updated", some sessionId, now,
    [("new_status", some status), ("event_id", eventId)], none, "success"⟩

/-- The audit row written by the create-session route's catch block
(`logAuditEvent("session_creation_failed", null, ...)`). -/
def sessionCreationFailedEntry (now : Nat) : AuditEntry :=
  ⟨"session_creation_failed", none, now,
    [("error", some "upstream_error")], none, "success"⟩

/-- The `POST /create-session` route.  `providerResult` is the outcome of the
blocking provider call (`none` models a thrown `UpstreamError`); on failure the
catch block audits `session_creation_failed` and answers 500, and neither
`createVerificationRecord` nor the route's own `session_created` audit runs.
A missing FRONTEND_URL is answered 500 before the provider is reached. -/
def createSessionHandler (frontendUrl : Option String) (userReference : String)
    (providerResult : Option ProviderSession) (now : Nat) (db : DB) : DB × Nat :=
  match frontendUrl with
  | none => (db, 500)
  | some _ =>
    match providerResult with
    | none =>
      (logAuditEvent "session_creation_failed" none
        [("error", some "upstream_error")] none now db, 500)
    | some s =>
      let db1 := createVerificationRecord s.id userReference "document" now db
      let db2 := logAuditEvent "session_created" (some s.id)
        [("user_reference", some userReference), ("ip", none)] none now db1
      (db2, 200)

/-- The `GET /verification-status/:sessionId` route, after a successful
provider retrieve reporting `providerStatus`: 404 when no local record exists;
otherwise resync through `updateVerificationStatus(sessionId, providerStatus,
"manual_sync")` exactly when the provider's status differs from the stored
one, and answer 200. -/
def getStatusHandler (sessionId providerStatus : String) (now : Nat)
    (db : DB) : DB × Nat :=
  match getVerificationBySessionId sessionId db with
  | none => (db, 404)
  | some record =>
    if providerStatus ≠ record.status then
      ((updateVerificationStatus sessionId providerStatus (some "manual_sync") now db).1, 200)
    else
      (db, 200)

/-- Number of audit rows with a given event type and session reference. -/
def countAudit (eventType : String) (sessionId : Option String) (db : DB) : Nat :=
  (db.audit.filter (fun a => a.event_type == eventType && a.session_id == sessionId)).length

/-- The audit row written by `deleteUserData`'s trailing
`logAuditEvent("user_data_deleted", null, ...)`. -/
def userDataDeletedEntry (userReference : String) (now : Nat) : AuditEntry :=
  ⟨"user_data_deleted", none, now, [("user_reference", some userReference)], none, "success"⟩

/-- A sequence of `updateVerificationStatus` calls, one argument tuple each. -/
structure UpdateCmd where
  sessionId : String
  status : String
  eventId : Option String
  now : Nat
deriving Repr, DecidableEq

/-- Run a sequence of `updateVerificationStatus` calls against the store. -/
def runUpdates (cmds : List UpdateCmd) (db : DB) : DB :=
  cmds.foldl
    (fun d c => (updateVerificationStatus c.sessionId c.status c.eventId c.now d).1) db

/-- The cumulative effect of a sequence of `updateVerificationStatus` calls on
one row: each call rewrites the row through its UPDATE when the WHERE clause
matches. -/
def runRecord (cmds : List UpdateCmd) (s : Session) : Session :=
  cmds.foldl (fun r c => applyUpdate c.sessionId c.status c.eventId c.now r) s

/-! ## Helper lemmas -/

theorem applyUpdate_session_id (sid st : String) (ev : Option String) (now : Nat)
    (s : Session) : (applyUpdate sid st ev now s).session_id = s.session_id := by
  unfold applyUpdate
  split <;> rfl

theorem runRecord_session_id (cmds : List UpdateCmd) (s : Session) :
    (runRecord cmds s).session_id = s.session_id := by
  induction cmds generalizing s with
  | nil => rfl
  | cons c cs ih =>
    show (runRecord cs (applyUpdate c.sessionId c.status c.eventId c.now s)).session_id = _
    rw [ih, applyUpdate_session_id]

theorem runUpdates_sessions (cmds : List UpdateCmd) (db : DB) :
    (runUpdates cmds db).sessions = db.sessions.map (fun s => runRecord cmds s) := by
  induction cmds generalizing db with
  | nil =>
    show db.sessions = _
    simp [runRecord]
  | cons c cs ih =>
    show (runUpdates cs _).sessions = _
    rw [ih]
    show (db.sessions.map (applyUpdate c.sessionId c.status c.eventId c.now)).map
        (fun s => runRecord cs s) = _
    rw [List.map_map]
    rfl

theorem applyUpdate_verified_at_of_ne (sid st : String) (ev : Option String) (now : Nat)
    (s : Session) (h : st ≠ "verified") :
    (applyUpdate sid st ev now s).verified_at = s.verified_at := by
  unfold applyUpdate
  split
  · simp [h]
  · rfl

theorem applyUpdate_verified_at_ne_none (sid st : String) (ev : Option String) (now : Nat)
    (s : Session) :
    (applyUpdate sid st ev now s).verified_at ≠ none ↔
      (s.verified_at ≠ none ∨ (s.session_id = sid ∧ st = "verified")) := by
  unfold applyUpdate
  by_cases h : s.session_id = sid
  · by_cases hv : st = "verified" <;> simp [h, hv]
  · simp [h]

theorem sessions_map_applyUpdate_id (sid st : String) (ev : Option String) (now : Nat)
    (l : List Session) (h : ∀ s ∈ l, s.session_id ≠ sid) :
    l.map (applyUpdate sid st ev now) = l := by
  induction l with
  | nil => rfl
  | cons a t ih =>
    simp only [List.map_cons]
    rw [ih (fun s hs => h s (List.mem_cons_of_mem a hs))]
    have ha := h a (List.mem_cons_self a t)
    unfold applyUpdate
    rw [if_neg ha]

theorem sessions_any_eq_false (sid : String) (l : List Session)
    (h : ∀ s ∈ l, s.session_id ≠ sid) :
    (l.any fun s => s.session_id == sid) = false := by
  rw [List.any_eq_false]
  intro s hs
  simp only [beq_iff_eq]
  exact h s hs

/-- `updateVerificationStatus` on a session id matching no row: the UPDATE
touches nothing, the `status_updated` audit row is still inserted, and the
returned flag is false. -/
theorem updateVerificationStatus_no_row (sid st : String) (ev : Option String)
    (now : Nat) (db : DB) (h : ∀ s ∈ db.sessions, s.session_id ≠ sid) :
    updateVerificationStatus sid st ev now db =
      ({ db with audit := db.audit ++ [statusUpdatedEntry sid st ev now] }, false) := by
  unfold updateVerificationStatus logAuditEvent statusUpdatedEntry
  rw [sessions_map_applyUpdate_id sid st ev now db.sessions h,
    sessions_any_eq_false sid db.sessions h]

theorem dispatchEvent_unmapped (e : StripeEvent) (now : Nat) (db : DB)
    (h : mappedType e.type = false) : dispatchEvent e now db = db := by
  unfold mappedType at h
  simp only [Bool.or_eq_false_iff, beq_eq_false_iff_ne, ne_eq] at h
  unfold dispatchEvent
  rw [if_neg h.1.1.1, if_neg h.1.1.2, if_neg h.1.2, if_neg h.2]

theorem dispatchEvent_audit_extends (e : StripeEvent) (now : Nat) (db : DB) :
    ∃ tail, (dispatchEvent e now db).audit = db.audit ++ tail := by
  unfold dispatchEvent
  split
  · exact ⟨[statusUpdatedEntry e.objectId "verified" (jsOrNull e.lastErrorCode) now], rfl⟩
  split
  · exact ⟨[statusUpdatedEntry e.objectId "requires_input" (jsOrNull e.lastErrorCode) now],
      rfl⟩
  split
  · exact ⟨[statusUpdatedEntry e.objectId "processing" none now], rfl⟩
  split
  · exact ⟨[statusUpdatedEntry e.objectId "canceled" none now], rfl⟩
  · exact ⟨[], by simp⟩

/-- A mapped event whose object id matches no stored row: the dispatch leaves
the sessions table unchanged and appends exactly one `status_updated` row. -/
theorem dispatchEvent_mapped_no_row (e : StripeEvent) (now : Nat) (db : DB)
    (hm : mappedType e.type = true) (h : ∀ s ∈ db.sessions, s.session_id ≠ e.objectId) :
    ∃ st ev, dispatchEvent e now db =
      { db with audit := db.audit ++ [statusUpdatedEntry e.objectId st ev now] } := by
  unfold dispatchEvent
  by_cases h1 : e.type = "identity.verification_session.verified"
  · rw [if_pos h1]
    exact ⟨"verified", jsOrNull e.lastErrorCode,
      congrArg Prod.fst (updateVerificationStatus_no_row _ _ _ now db h)⟩
  rw [if_neg h1]
  by_cases h2 : e.type = "identity.verification_session.requires_input"
  · rw [if_pos h2]
    exact ⟨"requires_input", jsOrNull e.lastErrorCode,
      congrArg Prod.fst (updateVerificationStatus_no_row _ _ _ now db h)⟩
  rw [if_neg h2]
  by_cases h3 : e.type = "identity.verification_session.processing"
  · rw [if_pos h3]
    exact ⟨"processing", none,
      congrArg Prod.fst (updateVerificationStatus_no_row _ _ _ now db h)⟩
  rw [if_neg h3]
  by_cases h4 : e.type = "identity.verification_session.canceled"
  · rw [if_pos h4]
    exact ⟨"canceled", none,
      congrArg Prod.fst (updateVerificationStatus_no_row _ _ _ now db h)⟩
  unfold mappedType at hm
  simp [h1, h2, h3, h4] at hm

theorem countAudit_append_one (et : String) (sid : Option String) (ss : List Session)
    (l : List AuditEntry) (a : AuditEntry) :
    countAudit et sid ⟨ss, l ++ [a]⟩ =
      countAudit et sid ⟨ss, l⟩ +
        (if a.event_type == et && a.session_id == sid then 1 else 0) := by
  by_cases hp : (a.event_type == et && a.session_id == sid) = true <;>
    simp [countAudit, List.filter_append, List.filter, hp]

/-- Structure of the webhook route on a signature-valid, parseable request:
receipt audit row first, then either the idempotency short-circuit or the
type dispatch. -/
theorem webhookHandler_verified_shape (sec body : String) (e : StripeEvent)
    (now : Nat) (db : DB) (hparse : decodeEvent body = some e) :
    webhookHandler (some sec) body (some (signBody sec body)) now db =
      if isEventProcessed e.id db
      then ({ db with audit := db.audit ++ [receiptEntry e now] }, 200, true)
      else (dispatchEvent e now { db with audit := db.audit ++ [receiptEntry e now] },
        200, false) := by
  have hev : constructEvent body (some (signBody sec body)) sec = some e := by
    show (if signBody sec body = signBody sec body then decodeEvent body else none) = some e
    rw [if_pos rfl, hparse]
  simp only [webhookHandler, hev]
  rfl

theorem runRecord_verified_at_ne_none (cmds : List UpdateCmd) (s : Session) :
    (runRecord cmds s).verified_at ≠ none ↔
      (s.verified_at ≠ none ∨
        ∃ c ∈ cmds, s.session_id = c.sessionId ∧ c.status = "verified") := by
  induction cmds generalizing s with
  | nil => simp [runRecord]
  | cons c cs ih =>
    show (runRecord cs (applyUpdate c.sessionId c.status c.eventId c.now s)).verified_at ≠
        none ↔ _
    rw [ih]
    simp only [applyUpdate_verified_at_ne_none, applyUpdate_session_id, List.mem_cons]
    constructor
    · rintro ((hv | hc) | ⟨c2, hc2, hp⟩)
      · exact Or.inl hv
      · exact Or.inr ⟨c, Or.inl rfl, hc⟩
      · exact Or.inr ⟨c2, Or.inr hc2, hp⟩
    · rintro (hv | ⟨c2, (rfl | hc2), hp⟩)
      · exact Or.inl (Or.inl hv)
      · exact Or.inl (Or.inr hp)
      · exact Or.inr ⟨c2, hc2, hp⟩

/-! ## Claim C1 -/

/-- The store before the first delivery of the doubled event: one session in
its initial `created` state, empty audit log. -/
def c1db : DB := ⟨[⟨"s1", "u1", "created", "document", 0, 0, none, none⟩], []⟩

/-- The doubled webhook event: a `verified` notification for session `s1`
with event id `e1` and no `last_error`. -/
def c1evt : StripeEvent := ⟨"e1", "identity.verification_session.verified", "s1", none⟩

/-- The raw payload of the doubled event. -/
def c1body : String := encodeEvent c1evt

/-- Its (valid) signature under the configured secret `k`. -/
def c1sig : Option String := some (signBody "k" c1body)

/-- The store after the first delivery. -/
def c1once : DB := (webhookHandler (some "k") c1body c1sig 1 c1db).1

/-- The store after the second delivery of the same event. -/
def c1twice : DB := (webhookHandler (some "k") c1body c1sig 2 c1once).1

/-- C1: the webhook pipeline is NOT idempotent.  The route passes
`session.last_error?.code || null` — not `event.id` — as the `eventId`
argument of `updateVerificationStatus`, so `last_event_id` never records the
delivered event id and `isEventProcessed(event.id)` stays false on
redelivery.  At the concrete doubled delivery of `e1`: the second delivery is
not short-circuited, a second `status_updated` audit row is written (the
claim requires exactly one), and the stored session row itself changes again
(`updated_at`/`verified_at` move to the second delivery time). -/
theorem c1_webhook_redelivery_applied_twice :
    countAudit "status_updated" (some "s1") c1twice = 2 ∧
    (webhookHandler (some "k") c1body c1sig 2 c1once).2.2 = false ∧
    isEventProcessed "e1" c1once = false ∧
    c1twice.sessions ≠ c1once.sessions := by
  decide

/-! ## Claim C2 -/

/-- C2, as stated, is false: with no webhook secret configured the route
parses the body without any signature check, so a tampered payload with an
arbitrary signature header is accepted with 200 and no `webhook_error` row.
Concretely: no secret, a parseable body, signature header `"bad"`. -/
theorem c2_no_secret_accepts_tampered :
    (webhookHandler none (encodeEvent ⟨"e2", "sometype", "s2", none⟩)
        (some "bad") 1 ⟨[], []⟩).2.1 = 200 ∧
    countAudit "webhook_error" none
      (webhookHandler none (encodeEvent ⟨"e2", "sometype", "s2", none⟩)
          (some "bad") 1 ⟨[], []⟩).1 = 0 := by
  decide

/-- C2 (amended): when a webhook secret IS configured, every request whose
signature header is missing or does not match the raw body under the secret
— in particular any tampered body — is rejected with status 400, a
`webhook_error` audit row is appended, and nothing else changes. -/
theorem c2_signature_enforcement (sec body : String) (sig : Option String)
    (now : Nat) (db : DB) (h : sig ≠ some (signBody sec body)) :
    webhookHandler (some sec) body sig now db =
      ({ db with audit := db.audit ++ [webhookErrorEntry now] }, 400, false) := by
  cases sig with
  | none => rfl
  | some s =>
    have hs : constructEvent body (some s) sec = none := by
      show (if s = signBody sec body then decodeEvent body else none) = none
      rw [if_neg (fun hEq => h (congrArg some hEq))]
    simp [webhookHandler, hs, logAuditEvent, webhookErrorEntry]

/-- Witness for C2: secret `k`, original body `x` carrying its valid
signature, but the body tampered to `y` — rejected 400 with a
`webhook_error` audit row. -/
theorem c2_signature_enforcement_witness :
    webhookHandler (some "k") "y" (some (signBody "k" "x")) 3 ⟨[], []⟩ =
      ({ sessions := [], audit := [webhookErrorEntry 3] }, 400, false) :=
  c2_signature_enforcement "k" "y" (some (signBody "k" "x")) 3 ⟨[], []⟩ (by decide)

/-! ## Claim C3 -/

/-- C3: for every stored row and every sequence of `updateVerificationStatus`
calls, the row evolves by `runRecord`; starting from a null `verified_at` the
field becomes non-null exactly when some call in the sequence set this row's
status to `verified`; once non-null it can never return to null; and any
single update to a status other than `verified` leaves it untouched. -/
theorem c3_verifiedAt_invariant (db : DB) (cmds : List UpdateCmd) (s : Session)
    (hs : s ∈ db.sessions) :
    runRecord cmds s ∈ (runUpdates cmds db).sessions ∧
    (s.verified_at = none →
      ((runRecord cmds s).verified_at ≠ none ↔
        ∃ c ∈ cmds, s.session_id = c.sessionId ∧ c.status = "verified")) ∧
    (s.verified_at ≠ none → (runRecord cmds s).verified_at ≠ none) ∧
    (∀ c : UpdateCmd, c.status ≠ "verified" →
      (applyUpdate c.sessionId c.status c.eventId c.now s).verified_at =
        s.verified_at) := by
  refine ⟨?_, ?_, ?_, ?_⟩
  · rw [runUpdates_sessions]
    exact List.mem_map_of_mem _ hs
  · intro h0
    rw [runRecord_verified_at_ne_none]
    simp [h0]
  · exact fun h => (runRecord_verified_at_ne_none cmds s).mpr (Or.inl h)
  · exact fun c hc => applyUpdate_verified_at_of_ne _ _ _ _ _ hc

/-- Witness for C3: a freshly created row (null `verified_at`) hit by one
`verified` update has a non-null `verified_at`. -/
theorem c3_verifiedAt_invariant_witness :
    (runRecord [⟨"s1", "verified", none, 5⟩]
        ⟨"s1", "u1", "created", "document", 0, 0, none, none⟩).verified_at ≠ none :=
  ((c3_verifiedAt_invariant
      ⟨[⟨"s1", "u1", "created", "document", 0, 0, none, none⟩], []⟩
      [⟨"s1", "verified", none, 5⟩]
      ⟨"s1", "u1", "created", "document", 0, 0, none, none⟩
      (by decide)).2.1 rfl).mpr ⟨⟨"s1", "verified", none, 5⟩, by decide⟩

/-! ## Claim C4 -/

/-- C4: on a signature-verified event the `webhook_received` receipt row is
appended before anything else (the resulting audit log always continues
`db.audit ++ [receipt]`), and an event short-circuited as a duplicate leaves
exactly that receipt row and no other change. -/
theorem c4_receipt_precedes_processing (sec body : String) (e : StripeEvent)
    (now : Nat) (db : DB) (hparse : decodeEvent body = some e) :
    (isEventProcessed e.id db = true →
      webhookHandler (some sec) body (some (signBody sec body)) now db =
        ({ db with audit := db.audit ++ [receiptEntry e now] }, 200, true)) ∧
    (∃ rest, (webhookHandler (some sec) body (some (signBody sec body)) now db).1.audit =
      db.audit ++ receiptEntry e now :: rest) := by
  rw [webhookHandler_verified_shape sec body e now db hparse]
  constructor
  · intro hdup
    rw [if_pos hdup]
  · cases isEventProcessed e.id db with
    | true =>
      rw [if_pos rfl]
      exact ⟨[], rfl⟩
    | false =>
      rw [if_neg Bool.false_ne_true]
      obtain ⟨tail, ht⟩ := dispatchEvent_audit_extends e now
        { db with audit := db.audit ++ [receiptEntry e now] }
      refine ⟨tail, ?_⟩
      rw [ht]
      show (db.audit ++ [receiptEntry e now]) ++ tail = _
      rw [List.append_assoc]
      rfl

/-- Witness for C4: a delivery of event id `e1` against a store whose row
already carries `last_event_id = "e1"` is short-circuited, leaving exactly
the receipt row. -/
theorem c4_receipt_precedes_processing_witness :
    webhookHandler (some "k") (encodeEvent ⟨"e1", "identity.verification_session.verified", "s1", none⟩)
        (some (signBody "k" (encodeEvent ⟨"e1", "identity.verification_session.verified", "s1", none⟩)))
        4 ⟨[⟨"s1", "u1", "verified", "document", 0, 1, some 1, some "e1"⟩], []⟩ =
      ({ sessions := [⟨"s1", "u1", "verified", "document", 0, 1, some 1, some "e1"⟩],
         audit := [receiptEntry ⟨"e1", "identity.verification_session.verified", "s1", none⟩ 4] },
        200, true) :=
  (c4_receipt_precedes_processing "k"
    (encodeEvent ⟨"e1", "identity.verification_session.verified", "s1", none⟩)
    ⟨"e1", "identity.verification_session.verified", "s1", none⟩ 4
    ⟨[⟨"s1", "u1", "verified", "document", 0, 1, some 1, some "e1"⟩], []⟩
    (by decide)).1 (by decide)

/-! ## Claim C5 -/

/-- C5: a signature-verified event of an unmapped type is acknowledged with
200, mutates no session row, and still leaves the `webhook_received` receipt
row (and nothing else) in the audit log. -/
theorem c5_unknown_type_acknowledged (sec body : String) (e : StripeEvent)
    (now : Nat) (db : DB) (hparse : decodeEvent body = some e)
    (hunk : mappedType e.type = false) :
    (webhookHandler (some sec) body (some (signBody sec body)) now db).1 =
      { db with audit := db.audit ++ [receiptEntry e now] } ∧
    (webhookHandler (some sec) body (some (signBody sec body)) now db).2.1 = 200 := by
  rw [webhookHandler_verified_shape sec body e now db hparse]
  cases isEventProcessed e.id db with
  | true =>
    rw [if_pos rfl]
    exact ⟨rfl, rfl⟩
  | false =>
    rw [if_neg Bool.false_ne_true]
    rw [dispatchEvent_unmapped e now _ hunk]
    exact ⟨rfl, rfl⟩

/-- Witness for C5: an event of type `account.updated` leaves the store's
sessions unchanged and is acknowledged. -/
theorem c5_unknown_type_acknowledged_witness :
    (webhookHandler (some "k") (encodeEvent ⟨"e9", "account.updated", "s1", none⟩)
        (some (signBody "k" (encodeEvent ⟨"e9", "account.updated", "s1", none⟩)))
        6 ⟨[⟨"s1", "u1", "created", "document", 0, 0, none, none⟩], []⟩).1 =
      { sessions := [⟨"s1", "u1", "created", "document", 0, 0, none, none⟩],
        audit := [receiptEntry ⟨"e9", "account.updated", "s1", none⟩ 6] } :=
  (c5_unknown_type_acknowledged "k" (encodeEvent ⟨"e9", "account.updated", "s1", none⟩)
    ⟨"e9", "account.updated", "s1", none⟩ 6
    ⟨[⟨"s1", "u1", "created", "document", 0, 0, none, none⟩], []⟩
    (by decide) (by decide)).1

/-! ## Claim C6 -/

theorem deleteUserData_sessions_spec (u : String) (now : Nat) (db : DB) :
    (deleteUserData u now db).1.sessions =
      db.sessions.filter (fun s => !(s.user_reference == u)) := rfl

theorem deleteUserData_audit_spec (u : String) (now : Nat) (db : DB) :
    (deleteUserData u now db).1.audit =
      (db.audit.filter (fun a =>
        !(match a.session_id with
          | some sid => ((db.sessions.filter (fun s => s.user_reference == u)).map
              (fun s => s.session_id)).contains sid
          | none => false))) ++ [userDataDeletedEntry u now] := rfl

/-- C6: `deleteUserData u` reports success, leaves no session row owned by
`u`, leaves no audit row referencing a session that `u` owned before the
call, degenerates to just the global `user_data_deleted` audit row when `u`
owns nothing, and the two DELETEs run as one transaction: an injected crash
between them rolls the whole unit back, so the store is observed either
untouched or with both deletions applied. -/
theorem c6_atomic_deletion (u : String) (now : Nat) (db : DB) :
    (deleteUserData u now db).2 = true ∧
    (∀ s ∈ (deleteUserData u now db).1.sessions, s.user_reference ≠ u) ∧
    (∀ a ∈ (deleteUserData u now db).1.audit, ∀ s0 ∈ db.sessions,
      s0.user_reference = u → a.session_id ≠ some s0.session_id) ∧
    ((∀ s ∈ db.sessions, s.user_reference ≠ u) →
      (deleteUserData u now db).1 =
        { db with audit := db.audit ++ [userDataDeletedEntry u now] }) ∧
    (∀ crash : Bool, deleteUserDataWithCrash u crash db = db ∨
      deleteUserDataWithCrash u crash db = deleteUserDataTransaction u db) := by
  refine ⟨rfl, ?_, ?_, ?_, ?_⟩
  · intro s hs
    rw [deleteUserData_sessions_spec] at hs
    have hmem := List.mem_filter.mp hs
    simpa using hmem.2
  · intro a ha s0 hs0 hu heq
    rw [deleteUserData_audit_spec] at ha
    rcases List.mem_append.mp ha with hin | hone
    · have hf := (List.mem_filter.mp hin).2
      simp only [heq] at hf
      have hmem : s0.session_id ∈ (db.sessions.filter
          (fun s => s.user_reference == u)).map (fun s => s.session_id) :=
        List.mem_map_of_mem _ (List.mem_filter.mpr ⟨hs0, by simp [hu]⟩)
      have hc : ((db.sessions.filter (fun s => s.user_reference == u)).map
          (fun s => s.session_id)).contains s0.session_id = true :=
        List.elem_eq_true_of_mem hmem
      rw [hc] at hf
      simp at hf
    · have hae : a = userDataDeletedEntry u now := by simpa using hone
      rw [hae] at heq
      exact Option.noConfusion heq
  · intro h
    have hfilter : db.sessions.filter (fun s => s.user_reference == u) = [] :=
      List.filter_eq_nil_iff.mpr (fun s hs => by simp [h s hs])
    have hsess : db.sessions.filter (fun s => !(s.user_reference == u)) = db.sessions :=
      List.filter_eq_self.mpr (fun s hs => by simp [h s hs])
    have haudit : db.audit.filter (fun a =>
        !(match a.session_id with
          | some sid => ((db.sessions.filter (fun s => s.user_reference == u)).map
              (fun s => s.session_id)).contains sid
          | none => false)) = db.audit := by
      rw [hfilter]
      exact List.filter_eq_self.mpr (fun a _ => by cases h2 : a.session_id <;> simp [h2])
    have hsplit : (deleteUserData u now db).1 =
        (⟨db.sessions.filter (fun s => !(s.user_reference == u)),
          (db.audit.filter (fun a =>
            !(match a.session_id with
              | some sid => ((db.sessions.filter (fun s => s.user_reference == u)).map
                  (fun s => s.session_id)).contains sid
              | none => false))) ++ [userDataDeletedEntry u now]⟩ : DB) := rfl
    rw [hsplit, hsess, haudit]
  · intro crash
    cases crash
    · exact Or.inr rfl
    · exact Or.inl rfl

/-- Witness for C6: the trivial-success branch on a store whose only session
belongs to a different user. -/
theorem c6_atomic_deletion_witness :
    (deleteUserData "u2" 7 ⟨[⟨"s1", "u1", "created", "document", 0, 0, none, none⟩], []⟩).1 =
      { sessions := [⟨"s1", "u1", "created", "document", 0, 0, none, none⟩],
        audit := [userDataDeletedEntry "u2" 7] } :=
  (c6_atomic_deletion "u2" 7
    ⟨[⟨"s1", "u1", "created", "document", 0, 0, none, none⟩], []⟩).2.2.2.1 (by decide)

/-! ## Claim C7 -/

/-- C7: on a stored session, when the provider-reported status differs from
the stored one `GetStatus` applies exactly the dispatcher's update-and-audit
path with the synthetic event id `manual_sync` — appending a
`status_updated` audit row tagged `manual_sync` — and it does so for every
store, with no `isEventProcessed` consultation (the equation has no
idempotency hypothesis, so the resync applies even when some row already
carries `last_event_id = "manual_sync"`); when the statuses agree the store
is returned unchanged. -/
theorem c7_manual_sync_resync (sessionId providerStatus : String) (now : Nat)
    (db : DB) (r : Session)
    (hr : getVerificationBySessionId sessionId db = some r) :
    (providerStatus ≠ r.status →
      getStatusHandler sessionId providerStatus now db =
        ((updateVerificationStatus sessionId providerStatus (some "manual_sync") now db).1,
          200) ∧
      (getStatusHandler sessionId providerStatus now db).1.audit =
        db.audit ++ [statusUpdatedEntry sessionId providerStatus (some "manual_sync") now]) ∧
    (providerStatus = r.status →
      getStatusHandler sessionId providerStatus now db = (db, 200)) := by
  constructor
  · intro hne
    have hh : getStatusHandler sessionId providerStatus now db =
        ((updateVerificationStatus sessionId providerStatus (some "manual_sync") now db).1,
          200) := by
      simp only [getStatusHandler, hr]
      rw [if_pos hne]
    exact ⟨hh, by rw [hh]; rfl⟩
  · intro heq
    simp only [getStatusHandler, hr]
    simp [heq]

/-- Witness for C7: stored status `processing`, provider reports `verified`,
and the stored row already has `last_event_id = "manual_sync"` (so an
`isEventProcessed "manual_sync"` check would have short-circuited — the
resync still applies). -/
theorem c7_manual_sync_resync_witness :
    getStatusHandler "s1" "verified" 9
        ⟨[⟨"s1", "u1", "processing", "document", 0, 0, none, some "manual_sync"⟩], []⟩ =
      ((updateVerificationStatus "s1" "verified" (some "manual_sync") 9
        ⟨[⟨"s1", "u1", "processing", "document", 0, 0, none, some "manual_sync"⟩], []⟩).1,
        200) :=
  ((c7_manual_sync_resync "s1" "verified" 9
      ⟨[⟨"s1", "u1", "processing", "document", 0, 0, none, some "manual_sync"⟩], []⟩
      ⟨"s1", "u1", "processing", "document", 0, 0, none, some "manual_sync"⟩
      (by decide)).1 (by decide)).1

/-! ## Claim C8 -/

/-- C8: when the provider call fails, `CreateSession` creates no local row,
appends a `session_creation_failed` audit row, and answers 500; the sessions
table can only change when the provider call succeeded. -/
theorem c8_provider_failure_no_record (fu userRef : String) (now : Nat) (db : DB) :
    createSessionHandler (some fu) userRef none now db =
      ({ db with audit := db.audit ++ [sessionCreationFailedEntry now] }, 500) ∧
    ∀ pr : Option ProviderSession,
      (createSessionHandler (some fu) userRef pr now db).1.sessions ≠ db.sessions →
        pr ≠ none := by
  refine ⟨rfl, ?_⟩
  intro pr h
  cases pr with
  | none => exact absurd rfl h
  | some s => simp

/-- Witness for C8: a failed provider call against an empty store, and a
successful one (which does change the sessions table, hence is not `none`). -/
theorem c8_provider_failure_no_record_witness :
    createSessionHandler (some "f") "u" none 3 ⟨[], []⟩ =
      ({ sessions := [], audit := [sessionCreationFailedEntry 3] }, 500) ∧
    (some (⟨"sP", "uP"⟩ : ProviderSession) ≠ none) :=
  ⟨(c8_provider_failure_no_record "f" "u" 3 ⟨[], []⟩).1,
   (c8_provider_failure_no_record "f" "u" 3 ⟨[], []⟩).2 (some ⟨"sP", "uP"⟩) (by decide)⟩

/-! ## Claim C9 -/

theorem countAudit_ignores_sessions (et : String) (sid : Option String)
    (ss : List Session) (db : DB) :
    countAudit et sid ⟨ss, db.audit⟩ = countAudit et sid db := rfl

/-- C9: a successful `CreateSession` appends exactly two `session_created`
audit rows for the new session id — one from `createVerificationRecord` in
the database layer and one from the route handler. -/
theorem c9_double_session_created_audit (fu userRef : String) (s : ProviderSession)
    (now : Nat) (db : DB) :
    countAudit "session_created" (some s.id)
        (createSessionHandler (some fu) userRef (some s) now db).1 =
      countAudit "session_created" (some s.id) db + 2 := by
  show countAudit "session_created" (some s.id)
      ⟨db.sessions ++ [⟨s.id, userRef, "created", "document", now, now, none, none⟩],
        (db.audit ++ [⟨"session_created", some s.id, now,
          [("user_reference", some userRef), ("verification_type", some "document")],
          none, "success"⟩]) ++ [⟨"session_created", some s.id, now,
          [("user_reference", some userRef), ("ip", none)], none, "success"⟩]⟩ = _
  rw [countAudit_append_one, countAudit_append_one, countAudit_ignores_sessions]
  simp

/-! ## Claim C10 -/

/-- C10: `updateVerificationStatus` appends its `status_updated` audit row
even when the session id matches no stored row (returning false and touching
no session), and consequently a signature-verified mapped webhook for a
locally unknown session appends a `status_updated` row while leaving the
sessions table — and hence the `isEventProcessed` outcome — unchanged, so
every redelivery appends another one. -/
theorem c10_orphan_update_still_audited :
    (∀ (sid st : String) (ev : Option String) (now : Nat) (db : DB),
      (∀ s ∈ db.sessions, s.session_id ≠ sid) →
        updateVerificationStatus sid st ev now db =
          ({ db with audit := db.audit ++ [statusUpdatedEntry sid st ev now] }, false)) ∧
    (∀ (sec body : String) (e : StripeEvent) (now : Nat) (db : DB),
      decodeEvent body = some e → mappedType e.type = true →
      (∀ s ∈ db.sessions, s.session_id ≠ e.objectId) →
      isEventProcessed e.id db = false →
        (webhookHandler (some sec) body (some (signBody sec body)) now db).1.sessions =
          db.sessions ∧
        countAudit "status_updated" (some e.objectId)
            (webhookHandler (some sec) body (some (signBody sec body)) now db).1 =
          countAudit "status_updated" (some e.objectId) db + 1 ∧
        isEventProcessed e.id
            (webhookHandler (some sec) body (some (signBody sec body)) now db).1 =
          false) := by
  constructor
  · exact fun sid st ev now db h => updateVerificationStatus_no_row sid st ev now db h
  · intro sec body e now db hparse hm hno hi
    rw [webhookHandler_verified_shape sec body e now db hparse, hi,
      if_neg Bool.false_ne_true]
    obtain ⟨st, ev, hd⟩ := dispatchEvent_mapped_no_row e now
      { db with audit := db.audit ++ [receiptEntry e now] } hm hno
    rw [hd]
    refine ⟨rfl, ?_, hi⟩
    show countAudit "status_updated" (some e.objectId)
        ⟨db.sessions, (db.audit ++ [receiptEntry e now]) ++
          [statusUpdatedEntry e.objectId st ev now]⟩ = _
    rw [countAudit_append_one, countAudit_append_one, countAudit_ignores_sessions]
    have h1 : ((receiptEntry e now).event_type == "status_updated" &&
        (receiptEntry e now).session_id == some e.objectId) = false := rfl
    have h2 : ((statusUpdatedEntry e.objectId st ev now).event_type == "status_updated" &&
        (statusUpdatedEntry e.objectId st ev now).session_id == some e.objectId) = true := by
      simp [statusUpdatedEntry]
    rw [h1, h2]
    simp

/-- Witness for C10: a `processing` event for the locally unknown session
`zz` still appends one `status_updated` row. -/
theorem c10_orphan_update_still_audited_witness :
    countAudit "status_updated" (some "zz")
        (webhookHandler (some "k")
          (encodeEvent ⟨"e7", "identity.verification_session.processing", "zz", none⟩)
          (some (signBody "k"
            (encodeEvent ⟨"e7", "identity.verification_session.processing", "zz", none⟩)))
          8 ⟨[⟨"s1", "u1", "created", "document", 0, 0, none, none⟩], []⟩).1 =
      countAudit "status_updated" (some "zz")
        ⟨[⟨"s1", "u1", "created", "document", 0, 0, none, none⟩], []⟩ + 1 :=
  (c10_orphan_update_still_audited.2 "k"
    (encodeEvent ⟨"e7", "identity.verification_session.processing", "zz", none⟩)
    ⟨"e7", "identity.verification_session.processing", "zz", none⟩ 8
    ⟨[⟨"s1", "u1", "created", "document", 0, 0, none, none⟩], []⟩
    (by decide) (by decide) (by decide) (by decide)).2.1

end StripePoc
